import Mathlib

/-!
Shallow embedding of the SYSTIMER driver (`esp-hal/src/timer/systimer.rs`)
and of the reentrant multicore lock (`esp-hal/src/lib.rs`), together with
theorems about the properties the specification states for them.

Machine integers are modelled as `Nat` with explicit `% 2^w` where the Rust
code relies on wrapping or truncating casts.  Hardware registers are explicit
record fields; the retry loops of the driver (`read_count`, the spinlock) are
modelled with explicit fuel and return `Option`, since the source loops are
unbounded.
-/

set_option maxRecDepth 8192

namespace EspHal

/-! ### Bit-level helper lemmas -/

/-- Bitwise complement on a 64-bit value: Rust `!m` for `m : u64`. -/
def not64 (m : Nat) : Nat := (2 ^ 64 - 1) ^^^ m

/-- Masking with the complement of a low-bits mask `2^k - 1` (as a `u64`)
yields zero exactly when the value fits in `k` bits. -/
theorem and_not64_mask_eq_zero_iff (x k : Nat) (hk : k ≤ 64) (hx : x < 2 ^ 64) :
    x &&& not64 (2 ^ k - 1) = 0 ↔ x < 2 ^ k := by
  constructor
  · intro h
    by_contra hc
    push_neg at hc
    obtain ⟨i, hik, hbit⟩ := Nat.ge_two_pow_implies_high_bit_true hc
    have hi64 : i < 64 := by
      by_contra h64
      push_neg at h64
      have hxi : x < 2 ^ i := lt_of_lt_of_le hx (Nat.pow_le_pow_right (by norm_num) h64)
      rw [Nat.testBit_lt_two_pow hxi] at hbit
      exact Bool.noConfusion hbit
    have hbit0 : (x &&& not64 (2 ^ k - 1)).testBit i = true := by
      rw [Nat.testBit_and, hbit, not64, Nat.testBit_xor,
        Nat.testBit_two_pow_sub_one, Nat.testBit_two_pow_sub_one]
      simp [hi64, Nat.not_lt.mpr hik]
    rw [h, Nat.zero_testBit] at hbit0
    exact Bool.noConfusion hbit0
  · intro h
    apply Nat.eq_of_testBit_eq
    intro i
    rw [Nat.zero_testBit, Nat.testBit_and, not64, Nat.testBit_xor,
      Nat.testBit_two_pow_sub_one, Nat.testBit_two_pow_sub_one]
    by_cases hik : i < k
    · simp [hik, Nat.lt_of_lt_of_le hik hk]
    · have hxi : x.testBit i = false :=
        Nat.testBit_lt_two_pow
          (lt_of_lt_of_le h (Nat.pow_le_pow_right (by norm_num) (Nat.not_lt.mp hik)))
      simp [hxi]

/-- Combining a high word with a low word below `2^32` by shift-or is plain
arithmetic recombination. -/
theorem shiftLeft32_or_eq (hi lo : Nat) (hlo : lo < 2 ^ 32) :
    (hi <<< 32) ||| lo = 2 ^ 32 * hi + lo := by
  apply Nat.eq_of_testBit_eq
  intro j
  rw [Nat.testBit_or, Nat.testBit_shiftLeft, Nat.testBit_mul_pow_two_add hi hlo]
  by_cases hj : j < 32
  · simp [hj, Nat.not_le.mpr hj]
  · have hlj : lo.testBit j = false :=
      Nat.testBit_lt_two_pow
        (lt_of_lt_of_le hlo (Nat.pow_le_pow_right (by norm_num) (Nat.not_lt.mp hj)))
    simp [hj, hlj, Nat.not_lt.mp hj]

/-! ### Counter unit: `Unit::read_count` and `Unit::set_count`

The tear-free read protocol of `Unit::read_count` (systimer.rs lines 239-264)
performs register reads at successive instants while the backing register pair
may be mutated concurrently between any two reads.  A trace `σ : Nat → Nat × Nat`
gives the `(lo, hi)` register pair visible at each read instant; the reader
consumes one instant per register read: `lo` at instant 0, then iteration `k`
reads `hi` at instant `2k+1` and `lo` at instant `2k+2`.  The source loop is
unbounded, so it is modelled with fuel. -/

/-- The value assembled by `read_count`: `((hi as u64) << 32) | lo as u64`
(systimer.rs line 261). -/
def combine (hi lo : Nat) : Nat := (hi <<< 32) ||| lo

/-- The retry loop of `Unit::read_count`: `lo_prev` holds the most recent
low-half read, `t` is the instant of the next register read. -/
def read_count_loop (σ : Nat → Nat × Nat) (lo_prev t : Nat) : Nat → Option Nat
  | 0 => none
  | fuel + 1 =>
    let hi := (σ t).2
    let lo_prev2 := (σ (t + 1)).1
    if lo_prev = lo_prev2 then some (combine hi lo_prev)
    else read_count_loop σ lo_prev2 (t + 2) fuel

/-- `Unit::read_count`: after the update-strobe/value-valid handshake, read
LO (instant 0), then loop reading HI and LO at successive instants until two
consecutive LO reads agree. -/
def read_count (σ : Nat → Nat × Nat) (fuel : Nat) : Option Nat :=
  read_count_loop σ (σ 0).1 1 fuel

/-- Register trace produced by a backing 64-bit counter whose value at read
instant `n` is `v n`: the LO register holds the low 32 bits, the HI register
the bits above. -/
def counterTrace (v : Nat → Nat) : Nat → Nat × Nat :=
  fun n => (v n % 2 ^ 32, v n / 2 ^ 32)

/-- `Unit::set_count` (systimer.rs lines 211-236): the staging registers are
written as `load_hi = (value << 32) as u32` (a `u64` shift whose result is then
truncated to 32 bits) and `load_lo = (value & 0xFFFF_FFFF) as u32`; the load
strobe then transfers the staged pair into the counter.  Returns the staged
`(lo, hi)` pair as loaded into the counter. -/
def set_count (value : Nat) : Nat × Nat :=
  let load_hi := ((value <<< 32) % 2 ^ 64) % 2 ^ 32
  let load_lo := value &&& 0xFFFFFFFF
  (load_lo, load_hi)

/-- Soundness of the retry loop: whenever it returns, the returned value is
`combine hi lo` for a HI read whose two adjacent LO reads returned the same
value `lo`. -/
theorem read_count_loop_sound (σ : Nat → Nat × Nat) :
    ∀ fuel k r, read_count_loop σ (σ (2 * k)).1 (2 * k + 1) fuel = some r →
      ∃ j, (σ (2 * j)).1 = (σ (2 * j + 2)).1 ∧
        r = combine (σ (2 * j + 1)).2 (σ (2 * j)).1 := by
  intro fuel
  induction fuel with
  | zero =>
    intro k r h
    simp [read_count_loop] at h
  | succ n ih =>
    intro k r h
    simp only [read_count_loop] at h
    by_cases heq : (σ (2 * k)).1 = (σ (2 * k + 1 + 1)).1
    · rw [if_pos heq] at h
      refine ⟨k, ?_, ?_⟩
      · simpa [Nat.add_assoc] using heq
      · exact (Option.some_inj.mp h).symm
    · rw [if_neg heq] at h
      have h2 : 2 * k + 1 + 1 = 2 * (k + 1) := by ring
      have h3 : 2 * k + 1 + 2 = 2 * (k + 1) + 1 := by ring
      rw [h2, h3] at h
      exact ih (k + 1) r h

/-- C1 (amended): `Unit::read_count` returns `(hi <<< 32) ||| lo` only when the
low-half reads immediately before and after the high-half read are equal; and
for every trace produced by a monotonically non-decreasing backing counter that
advances by less than `2^32` ticks over the read window (no concurrent reload),
the returned value equals the counter's value at a single instant.  (Under
arbitrary concurrent reloads the equal-LO check can be defeated; see the
counterexample.) -/
theorem read_count_tear_free_monotone :
    (∀ (σ : Nat → Nat × Nat) (fuel r : Nat), read_count σ fuel = some r →
      ∃ j, (σ (2 * j)).1 = (σ (2 * j + 2)).1 ∧
        r = combine (σ (2 * j + 1)).2 (σ (2 * j)).1) ∧
    (∀ (v : Nat → Nat) (fuel r : Nat),
      (∀ n, v n < 2 ^ 64) → (∀ n m, n ≤ m → v n ≤ v m) →
      (∀ n, v n - v 0 < 2 ^ 32) →
      read_count (counterTrace v) fuel = some r → ∃ n, r = v n) := by
  have base : ∀ (σ : Nat → Nat × Nat) (fuel r : Nat), read_count σ fuel = some r →
      ∃ j, (σ (2 * j)).1 = (σ (2 * j + 2)).1 ∧
        r = combine (σ (2 * j + 1)).2 (σ (2 * j)).1 := by
    intro σ fuel r h
    have h0 : read_count_loop σ (σ (2 * 0)).1 (2 * 0 + 1) fuel = some r := by
      simpa [read_count] using h
    exact read_count_loop_sound σ fuel 0 r h0
  refine ⟨base, ?_⟩
  intro v fuel r h64 hmono hdrift h
  obtain ⟨j, hlo, hr⟩ := base (counterTrace v) fuel r h
  simp only [counterTrace] at hlo hr
  have h1 : v (2 * j) ≤ v (2 * j + 1) := hmono _ _ (by omega)
  have h2 : v (2 * j + 1) ≤ v (2 * j + 2) := hmono _ _ (by omega)
  have h0j : v 0 ≤ v (2 * j) := hmono 0 _ (by omega)
  have hd : v (2 * j + 2) - v 0 < 2 ^ 32 := hdrift _
  have heq1 : v (2 * j + 1) = v (2 * j) := by omega
  refine ⟨2 * j, ?_⟩
  rw [hr, heq1, combine, shiftLeft32_or_eq _ _ (Nat.mod_lt _ (by norm_num))]
  omega

/-- Witness for C1's theorem at a concrete monotone trace: the counter steps
from 10 to 11 between the first LO read and the HI read, the first retry
succeeds, and the returned value 11 was the counter's value at an instant. -/
theorem read_count_tear_free_monotone_witness :
    ∃ n, 11 = (fun k : Nat => if k = 0 then 10 else 11) n :=
  read_count_tear_free_monotone.2 (fun k => if k = 0 then 10 else 11) 4 11
    (by intro n; by_cases h : n = 0 <;> simp [h])
    (by intro n m hnm; simp only; split <;> split <;> omega)
    (by intro n; by_cases h : n = 0 <;> simp [h])
    (by decide)

/-- A reload-interference trace refuting C1 as stated: the backing pair starts
at `(lo, hi) = (5, 1)`, is reloaded to `(9, 2)` after the reader's first LO
read, and reloaded to `(5, 3)` after the reader's HI read (every instant from
2 on holds `(5, 3)`).  The two adjacent LO reads both return 5, so the check
passes. -/
def tornTrace : Nat → Nat × Nat :=
  fun n => if n = 0 then (5, 1) else if n = 1 then (9, 2) else (5, 3)

/-- C1 counterexample: on `tornTrace`, `read_count` returns
`combine 2 5` — the high half from instant 1 glued to the low half from
instants 0 and 2 — which differs from the combined value of each of the three
states the trace ever holds, so it was valid at no single instant. -/
theorem read_count_reload_aba_torn :
    read_count tornTrace 1 = some (combine 2 5) ∧
    (tornTrace 0 = (5, 1) ∧ tornTrace 1 = (9, 2) ∧ tornTrace 2 = (5, 3)) ∧
    combine 2 5 ≠ combine 1 5 ∧ combine 2 5 ≠ combine 2 9 ∧
    combine 2 5 ≠ combine 3 5 := by
  decide

/-- C4 (code bug): `Unit::set_count` computes the high staging half as
`(value << 32) as u32` — which truncates the shifted-out value to 0 — instead
of `value >> 32` (compare `Comparator::set_target`, which writes
`(value >> 32) as u32`).  Reloading the unit to `2^32` stages `(0, 0)`, and an
immediate `read_count` (no intervening tick) returns 0, not `2^32`, although
the method is documented to set the value of the counter. -/
theorem set_count_high_half_bug :
    set_count 4294967296 = (0, 0) ∧
    read_count (fun _ => set_count 4294967296) 1 = some 0 ∧
    (0 : Nat) ≠ 4294967296 := by
  decide

/-! ### Comparator and alarm configuration

`wide = true` models the ESP32-S2 register layout (64-bit counter, 29-bit
period field, no COMP_LOAD commit strobe); `wide = false` models the layout of
the other chip variants (52-bit counter, 26-bit period field), mirroring the
`cfg(esp32s2)` conditional compilation of the source. -/

/-- `SystemTimer::BIT_MASK` (systimer.rs lines 50-62). -/
def BIT_MASK (wide : Bool) : Nat := if wide then 2 ^ 64 - 1 else 0xFFFFFFFFFFFFF

/-- `SystemTimer::PERIOD_MASK` (systimer.rs lines 50-62). -/
def PERIOD_MASK (wide : Bool) : Nat := if wide then 0x1FFFFFFF else 0x3FFFFFF

/-- `ComparatorMode` (systimer.rs lines 559-567). -/
inductive ComparatorMode
  | Period
  | Target
deriving DecidableEq, Repr

/-- `timer::Error`, restricted to the variant this driver raises. -/
inductive Error
  | InvalidTimeout
deriving DecidableEq, Repr

/-- The registers of one alarm comparator, together with the value `now` its
counter unit would currently read, and a ghost log `modeWrites` of the
PERIOD_MODE register writes performed (most recent last), used to state
write-sequencing properties. -/
structure CompState where
  now : Nat
  period_mode : Bool
  period : Nat
  target_hi : Nat
  target_lo : Nat
  work_en : Bool
  int_ena : Bool
  comp_load : Nat
  modeWrites : List ComparatorMode
deriving DecidableEq, Repr

/-- `Comparator::set_mode` (systimer.rs lines 375-385): one write of the
PERIOD_MODE bit. -/
def CompState.set_mode (s : CompState) (mode : ComparatorMode) : CompState :=
  let is_period_mode :=
    match mode with
    | ComparatorMode.Period => true
    | ComparatorMode.Target => false
  { s with period_mode := is_period_mode, modeWrites := s.modeWrites ++ [mode] }

/-- `Comparator::mode` (systimer.rs lines 389-399). -/
def CompState.mode (s : CompState) : ComparatorMode :=
  if s.period_mode then ComparatorMode.Period else ComparatorMode.Target

/-- `Comparator::set_period` (systimer.rs lines 403-414): writes the period
field, then asserts the COMP_LOAD commit strobe on the narrow-register
variant. -/
def CompState.set_period (s : CompState) (wide : Bool) (value : Nat) : CompState :=
  let s1 := { s with period := value }
  if wide then s1 else { s1 with comp_load := s1.comp_load + 1 }

/-- `Comparator::set_target` (systimer.rs lines 417-429): writes the target
halves as `(value >> 32) as u32` and `(value & 0xFFFF_FFFF) as u32`, then
asserts the COMP_LOAD commit strobe on the narrow-register variant. -/
def CompState.set_target (s : CompState) (wide : Bool) (value : Nat) : CompState :=
  let s1 := { s with
    target_hi := (value >>> 32) % 2 ^ 32
    target_lo := value &&& 0xFFFFFFFF }
  if wide then s1 else { s1 with comp_load := s1.comp_load + 1 }

/-- `Comparator::actual_target` (systimer.rs lines 432-441). -/
def CompState.actual_target (s : CompState) : Nat :=
  (s.target_hi <<< 32) ||| s.target_lo

/-- `Timer::load_value` for `Alarm` (systimer.rs lines 692-732), taken from the
point where the requested duration has been converted into a tick count
`ticks` (a `u64`).  In Period mode the tick count is validated against the
period mask and programmed as the reload period, re-arming via the
clear-then-set PERIOD_MODE sequence; in Target mode it is validated against
the counter mask (the check is compiled only on the narrow variant), added to
the current counter value, and the sum programmed as the absolute target.  A
validation failure returns `InvalidTimeout` before any register write. -/
def CompState.load_value (s : CompState) (wide : Bool) (ticks : Nat) :
    Except Error Unit × CompState :=
  let mode := s.mode
  if mode = ComparatorMode.Period then
    if ticks &&& not64 (PERIOD_MASK wide) ≠ 0 then
      (Except.error Error.InvalidTimeout, s)
    else
      let s1 := s.set_period wide (ticks % 2 ^ 32)
      let s2 := s1.set_mode ComparatorMode.Target
      let s3 := s2.set_mode ComparatorMode.Period
      (Except.ok (), s3)
  else
    if wide = false ∧ ticks &&& not64 (BIT_MASK false) ≠ 0 then
      (Except.error Error.InvalidTimeout, s)
    else
      let v := s.now
      let t := (v + ticks) % 2 ^ 64
      (Except.ok (), s.set_target wide t)

/-- `Timer::enable_auto_reload` for `Alarm` (systimer.rs lines 734-742). -/
def CompState.enable_auto_reload (s : CompState) (auto_reload : Bool) : CompState :=
  let mode := if auto_reload then ComparatorMode.Period else ComparatorMode.Target
  s.set_mode mode

/-- The mask `load_value` validates against in the comparator's current mode. -/
def CompState.active_mask (s : CompState) (wide : Bool) : Nat :=
  if s.period_mode then PERIOD_MASK wide else BIT_MASK wide

/-! ### Run lemmas for `load_value` -/

theorem le_mask_iff_and_not64 (x k : Nat) (hk : k ≤ 64) (hx : x < 2 ^ 64) :
    x &&& not64 (2 ^ k - 1) = 0 ↔ x ≤ 2 ^ k - 1 := by
  rw [and_not64_mask_eq_zero_iff x k hk hx]
  have hpos : 0 < 2 ^ k := Nat.two_pow_pos k
  omega

theorem and_not64_PERIOD_MASK_eq_zero_iff (wide : Bool) (x : Nat) (hx : x < 2 ^ 64) :
    x &&& not64 (PERIOD_MASK wide) = 0 ↔ x ≤ PERIOD_MASK wide := by
  cases wide
  · rw [show PERIOD_MASK false = 2 ^ 26 - 1 by decide]
    exact le_mask_iff_and_not64 x 26 (by norm_num) hx
  · rw [show PERIOD_MASK true = 2 ^ 29 - 1 by decide]
    exact le_mask_iff_and_not64 x 29 (by norm_num) hx

theorem and_not64_BIT_MASK_eq_zero_iff (x : Nat) (hx : x < 2 ^ 64) :
    x &&& not64 (BIT_MASK false) = 0 ↔ x ≤ BIT_MASK false := by
  rw [show BIT_MASK false = 2 ^ 52 - 1 by decide]
  exact le_mask_iff_and_not64 x 52 (by norm_num) hx

theorem actual_target_set_target (s : CompState) (wide : Bool) (x : Nat)
    (hx : x < 2 ^ 64) :
    (s.set_target wide x).actual_target = x := by
  have hlo : x &&& 0xFFFFFFFF = x % 2 ^ 32 := by
    rw [show (0xFFFFFFFF : Nat) = 2 ^ 32 - 1 by norm_num, Nat.and_pow_two_sub_one_eq_mod]
  have hhi : (x >>> 32) % 2 ^ 32 = x / 2 ^ 32 := by
    rw [Nat.shiftRight_eq_div_pow]
    exact Nat.mod_eq_of_lt (Nat.div_lt_of_lt_mul (by norm_num at hx ⊢; omega))
  have hcomb : ((x / 2 ^ 32) <<< 32) ||| x % 2 ^ 32 = x := by
    rw [shiftLeft32_or_eq _ _ (Nat.mod_lt _ (by norm_num))]
    omega
  cases wide <;>
    simp only [CompState.set_target, CompState.actual_target, Bool.false_eq_true,
      if_false, if_true] <;>
    rw [hlo, hhi] <;> exact hcomb

theorem load_value_period_ok (s : CompState) (wide : Bool) (t : Nat)
    (hp : s.period_mode = true) (ht : t < 2 ^ 64) (hfit : t ≤ PERIOD_MASK wide) :
    s.load_value wide t =
      (Except.ok (),
        ((s.set_period wide (t % 2 ^ 32)).set_mode ComparatorMode.Target).set_mode
          ComparatorMode.Period) := by
  have hz : t &&& not64 (PERIOD_MASK wide) = 0 :=
    (and_not64_PERIOD_MASK_eq_zero_iff wide t ht).mpr hfit
  simp [CompState.load_value, CompState.mode, hp, hz]

theorem load_value_period_err (s : CompState) (wide : Bool) (t : Nat)
    (hp : s.period_mode = true) (ht : t < 2 ^ 64) (hfit : ¬ t ≤ PERIOD_MASK wide) :
    s.load_value wide t = (Except.error Error.InvalidTimeout, s) := by
  have hz : ¬ t &&& not64 (PERIOD_MASK wide) = 0 := by
    rw [and_not64_PERIOD_MASK_eq_zero_iff wide t ht]
    exact hfit
  simp [CompState.load_value, CompState.mode, hp, hz]

theorem load_value_target_ok (s : CompState) (wide : Bool) (t : Nat)
    (hp : s.period_mode = false) (ht : t < 2 ^ 64) (hfit : t ≤ BIT_MASK wide) :
    s.load_value wide t = (Except.ok (), s.set_target wide ((s.now + t) % 2 ^ 64)) := by
  cases wide
  · have hz : t &&& not64 (BIT_MASK false) = 0 :=
      (and_not64_BIT_MASK_eq_zero_iff t ht).mpr hfit
    simp [CompState.load_value, CompState.mode, hp, hz]
  · simp [CompState.load_value, CompState.mode, hp]

theorem load_value_target_err (s : CompState) (t : Nat)
    (hp : s.period_mode = false) (ht : t < 2 ^ 64) (hfit : ¬ t ≤ BIT_MASK false) :
    s.load_value false t = (Except.error Error.InvalidTimeout, s) := by
  have hz : ¬ t &&& not64 (BIT_MASK false) = 0 := by
    rw [and_not64_BIT_MASK_eq_zero_iff t ht]
    exact hfit
  simp [CompState.load_value, CompState.mode, hp, hz]

/-- C2: for every tick count `t` (a `u64`), `load_value` succeeds iff `t` fits
the active mode's bit width (period mode: 26 bits narrow / 29 bits wide;
target mode: 52 bits narrow / 64 bits wide, where every `u64` fits);
`t = mask` succeeds and `t = mask + 1` fails; a rejected value returns
`InvalidTimeout` with every comparator register unchanged (never truncated);
an accepted value is programmed untruncated. -/
theorem load_value_range_validation (wide : Bool) (s : CompState) (t : Nat)
    (ht : t < 2 ^ 64) :
    ((s.load_value wide t).1 = Except.ok () ↔ t ≤ s.active_mask wide) ∧
    ((s.load_value wide t).1 = Except.ok () ∨
      ((s.load_value wide t).1 = Except.error Error.InvalidTimeout ∧
        (s.load_value wide t).2 = s)) ∧
    (s.period_mode = true → t ≤ PERIOD_MASK wide →
      ((s.load_value wide t).2).period = t) ∧
    (s.period_mode = false → t ≤ BIT_MASK wide →
      ((s.load_value wide t).2).actual_target = (s.now + t) % 2 ^ 64) := by
  by_cases hp : s.period_mode = true
  · have hmask : s.active_mask wide = PERIOD_MASK wide := by
      simp [CompState.active_mask, hp]
    by_cases hfit : t ≤ PERIOD_MASK wide
    · rw [load_value_period_ok s wide t hp ht hfit, hmask]
      have hlt : t < 2 ^ 32 := by
        have hm32 : PERIOD_MASK wide < 2 ^ 32 := by cases wide <;> decide
        omega
      refine ⟨by simp [hfit], Or.inl rfl, ?_, ?_⟩
      · intro _ _
        show (((s.set_period wide (t % 2 ^ 32)).set_mode ComparatorMode.Target).set_mode
          ComparatorMode.Period).period = t
        cases wide <;> simp [CompState.set_period, CompState.set_mode] <;> omega
      · intro hq _
        rw [hp] at hq
        exact absurd hq (by simp)
    · rw [load_value_period_err s wide t hp ht hfit, hmask]
      refine ⟨by simp [hfit], Or.inr ⟨rfl, rfl⟩, ?_, ?_⟩
      · intro _ hq
        exact absurd hq hfit
      · intro hq _
        rw [hp] at hq
        exact absurd hq (by simp)
  · have hp0 : s.period_mode = false := by simpa using hp
    have hmask : s.active_mask wide = BIT_MASK wide := by
      simp [CompState.active_mask, hp0]
    by_cases hfit : t ≤ BIT_MASK wide
    · rw [load_value_target_ok s wide t hp0 ht hfit, hmask]
      refine ⟨by simp [hfit], Or.inl rfl, ?_, ?_⟩
      · intro hq _
        rw [hp0] at hq
        exact absurd hq (by simp)
      · intro _ _
        show (s.set_target wide ((s.now + t) % 2 ^ 64)).actual_target = (s.now + t) % 2 ^ 64
        exact actual_target_set_target s wide _ (Nat.mod_lt _ (by norm_num))
    · cases wide
      · rw [load_value_target_err s t hp0 ht hfit, hmask]
        refine ⟨by simp [hfit], Or.inr ⟨rfl, rfl⟩, ?_, ?_⟩
        · intro hq _
          rw [hp0] at hq
          exact absurd hq (by simp)
        · intro _ hq
          exact absurd hq hfit
      · exact absurd (by rw [show BIT_MASK true = 2 ^ 64 - 1 by decide]; omega) hfit

/-- Witness for C2's theorem on the narrow variant in period mode:
`t = PERIOD_MASK` (the 26-bit mask) is accepted, `t = PERIOD_MASK + 1` is
rejected with `InvalidTimeout`. -/
theorem load_value_range_validation_witness :
    ((CompState.mk 0 true 0 0 0 false false 0 []).load_value false 0x3FFFFFF).1 =
      Except.ok () ∧
    ((CompState.mk 0 true 0 0 0 false false 0 []).load_value false 0x4000000).1 =
      Except.error Error.InvalidTimeout := by
  constructor
  · exact (load_value_range_validation false (CompState.mk 0 true 0 0 0 false false 0 [])
      0x3FFFFFF (by norm_num)).1.mpr (by decide)
  · rcases (load_value_range_validation false (CompState.mk 0 true 0 0 0 false false 0 [])
      0x4000000 (by norm_num)).2.1 with h | h
    · exact absurd ((load_value_range_validation false
        (CompState.mk 0 true 0 0 0 false false 0 []) 0x4000000 (by norm_num)).1.mp h)
        (by decide)
    · exact h.1

/-- C5 (amended): `Alarm::load_value` in Period mode always issues the
PERIOD_MODE writes Target followed immediately by Period, even when the
comparator is already in Period mode.  (`enable_auto_reload(true)`, by
contrast, performs a single Period write; see the counterexample.) -/
theorem load_value_period_clear_then_set (wide : Bool) (s : CompState) (t : Nat)
    (hp : s.period_mode = true) (ht : t < 2 ^ 64) (hfit : t ≤ PERIOD_MASK wide) :
    ((s.load_value wide t).2).modeWrites =
      s.modeWrites ++ [ComparatorMode.Target, ComparatorMode.Period] ∧
    ((s.load_value wide t).2).period_mode = true := by
  rw [load_value_period_ok s wide t hp ht hfit]
  cases wide <;> simp [CompState.set_period, CompState.set_mode]

/-- Witness for C5's theorem: a comparator already in Period mode, rescheduled
with an in-range period, logs exactly the write sequence Target, Period. -/
theorem load_value_period_clear_then_set_witness :
    (((CompState.mk 0 true 0 0 0 false false 0 []).load_value false 5).2).modeWrites =
      ([] : List ComparatorMode) ++ [ComparatorMode.Target, ComparatorMode.Period] ∧
    (((CompState.mk 0 true 0 0 0 false false 0 []).load_value false 5).2).period_mode =
      true :=
  load_value_period_clear_then_set false (CompState.mk 0 true 0 0 0 false false 0 []) 5
    rfl (by norm_num) (by decide)

/-- C5 counterexample: `enable_auto_reload(true)` switches the comparator into
Period mode with a single Period write of the PERIOD_MODE bit — not the
Target-then-Period sequence the claim requires of every path that enables
periodic operation. -/
theorem enable_auto_reload_single_period_write :
    ((CompState.mk 0 false 0 0 0 false false 0 []).enable_auto_reload true).period_mode =
      true ∧
    ((CompState.mk 0 false 0 0 0 false false 0 []).enable_auto_reload true).modeWrites =
      [ComparatorMode.Period] ∧
    [ComparatorMode.Period] ≠
      ([] : List ComparatorMode) ++ [ComparatorMode.Target, ComparatorMode.Period] := by
  decide

/-- C6: in Target mode, an in-range tick delta `d` is accepted and the
comparator's committed absolute target becomes exactly the counter value read
at the moment of the call plus `d`.  The programmed target depends only on
`s.now` and `d` — not on any previously programmed target or deadline — so
repeated calls are each relative to their own counter read. -/
theorem load_value_target_relative_to_now (wide : Bool) (s : CompState) (d : Nat)
    (hp : s.period_mode = false) (hfit : d ≤ BIT_MASK wide)
    (hno : s.now + d < 2 ^ 64) :
    (s.load_value wide d).1 = Except.ok () ∧
    ((s.load_value wide d).2).actual_target = s.now + d := by
  have hd : d < 2 ^ 64 := by
    have hbm : BIT_MASK wide ≤ 2 ^ 64 - 1 := by cases wide <;> decide
    omega
  rw [load_value_target_ok s wide d hp hd hfit]
  refine ⟨rfl, ?_⟩
  show (s.set_target wide ((s.now + d) % 2 ^ 64)).actual_target = s.now + d
  rw [actual_target_set_target s wide _ (Nat.mod_lt _ (by norm_num))]
  exact Nat.mod_eq_of_lt hno

/-- Witness for C6's theorem: with the counter at 100, rescheduling by 10 ticks
programs the absolute target 110. -/
theorem load_value_target_relative_to_now_witness :
    ((CompState.mk 100 false 0 0 0 false false 0 []).load_value false 10).1 =
      Except.ok () ∧
    (((CompState.mk 100 false 0 0 0 false false 0 []).load_value false 10).2).actual_target =
      110 := by
  simpa using load_value_target_relative_to_now false
    (CompState.mk 100 false 0 0 0 false false 0 []) 10 rfl (by decide) (by norm_num)

/-- C9: `enable_auto_reload(b)` changes only the comparator's PERIOD_MODE bit
(Period for `true`, Target for `false`): enable state, period value, target
value, interrupt-enable state, the commit-strobe count and the counter are all
unchanged, and the comparator is not implicitly stopped. -/
theorem enable_auto_reload_frame (b : Bool) (s : CompState) :
    (s.enable_auto_reload b).period_mode = b ∧
    (s.enable_auto_reload b).work_en = s.work_en ∧
    (s.enable_auto_reload b).period = s.period ∧
    (s.enable_auto_reload b).target_hi = s.target_hi ∧
    (s.enable_auto_reload b).target_lo = s.target_lo ∧
    (s.enable_auto_reload b).int_ena = s.int_ena ∧
    (s.enable_auto_reload b).comp_load = s.comp_load ∧
    (s.enable_auto_reload b).now = s.now := by
  cases b <;> exact ⟨rfl, rfl, rfl, rfl, rfl, rfl, rfl, rfl⟩

/-! ### Interrupt dispatch and suspension registry (systimer.rs `mod asynch`)

One comparator channel is modelled (channel 0, served by `target0_handler`;
channels 1 and 2 are textually identical).  `int_ena` is the channel's bit of
the INT_ENA interrupt-enable register; `int_raw` is its bit of the INT_RAW raw
status register, set by the hardware on a compare match and cleared only by a
write-one-to-clear via INT_CLR.  Wakers are identified by `Nat` ids; the ghost
list `woken` records, in order, the ids whose resumption has been scheduled. -/

structure AsyncState where
  int_ena : Bool
  int_raw : Bool
  waker : Option Nat
  woken : List Nat
deriving DecidableEq, Repr

/-- Modelled from the spec: the per-channel suspension slot (`WAKERS[ch]`, an
`embassy_sync::waitqueue::AtomicWaker` — an external collaborator whose code
is not part of this repository): it "holds at most one outstanding
notification target (a waker).  Registering a new one discards any previous
registration for that channel (last-register-wins; there is no queueing)". -/
def AsyncState.waker_register (s : AsyncState) (w : Nat) : AsyncState :=
  { s with waker := some w }

/-- Modelled from the spec: signalling the suspension slot "schedules
resumption of whichever caller is currently registered (if any — a caller may
not yet have registered; in that case the signal is idempotently absorbed)".
The woken waker is consumed from the slot; its id is appended to `woken`. -/
def AsyncState.waker_wake (s : AsyncState) : AsyncState :=
  match s.waker with
  | some w => { s with waker := none, woken := s.woken ++ [w] }
  | none => s

/-- `Timer::clear_interrupt` for `Alarm` (systimer.rs lines 752-756):
write-one-to-clear of the channel's INT_CLR bit. -/
def AsyncState.clear_interrupt (s : AsyncState) : AsyncState :=
  { s with int_raw := false }

/-- `Timer::enable_interrupt` for `Alarm` (systimer.rs lines 744-750):
read-modify-write of the channel's INT_ENA bit under `INT_ENA_LOCK`. -/
def AsyncState.enable_interrupt (s : AsyncState) (state : Bool) : AsyncState :=
  { s with int_ena := state }

/-- `Timer::is_interrupt_set` for `Alarm` (systimer.rs lines 758-764): reads
the channel's bit of the raw status register INT_RAW. -/
def AsyncState.is_interrupt_set (s : AsyncState) : Bool :=
  s.int_raw

/-- `AlarmFuture::new` (systimer.rs lines 822-835): clears any pending
interrupt, binds the channel's async handler, and enables the channel's
interrupt line. -/
def AsyncState.alarm_future_new (s : AsyncState) : AsyncState :=
  (s.clear_interrupt).enable_interrupt true

/-- `AlarmFuture::event_bit_is_clear` (systimer.rs lines 837-843): reads the
channel's INT_ENA bit and tests that it is clear. -/
def AsyncState.event_bit_is_clear (s : AsyncState) : Bool :=
  !s.int_ena

/-- A hardware compare match delivers the interrupt condition by setting the
channel's INT_RAW bit (hardware behaviour feeding the driver, not driver
code). -/
def AsyncState.hw_fire (s : AsyncState) : AsyncState :=
  { s with int_raw := true }

/-- `asynch::target0_handler` (systimer.rs lines 861-869): under
`INT_ENA_LOCK`, clears the channel's INT_ENA bit, then wakes the channel's
registered waker. -/
def AsyncState.target0_handler (s : AsyncState) : AsyncState :=
  (s.enable_interrupt false).waker_wake

/-- `Poll` as returned by `AlarmFuture::poll`. -/
inductive PollResult
  | Ready
  | Pending
deriving DecidableEq, Repr

/-- The registration step of `AlarmFuture::poll` (systimer.rs line 850):
`WAKERS[channel].register(ctx.waker())`. -/
def AsyncState.poll_register (s : AsyncState) (w : Nat) : AsyncState :=
  s.waker_register w

/-- The completion check of `AlarmFuture::poll` (systimer.rs lines 852-856);
it does not change any state. -/
def AsyncState.poll_check (s : AsyncState) : PollResult × AsyncState :=
  ((if s.event_bit_is_clear then PollResult.Ready else PollResult.Pending), s)

/-- `AlarmFuture::poll` (systimer.rs lines 849-857): registers the caller's
waker in the channel's slot, then checks the event bit. -/
def AsyncState.poll (s : AsyncState) (w : Nat) : PollResult × AsyncState :=
  (s.poll_register w).poll_check

/-- The C3 scenario — waiting on a comparator whose target is already in the
past: future creation, the caller's first poll, the hardware match, the bound
handler, then the caller's next poll.  Returns the first poll result, the
state after the handler ran, and the second poll. -/
def wait_scenario (s : AsyncState) (w : Nat) :
    PollResult × AsyncState × (PollResult × AsyncState) :=
  let s1 := s.alarm_future_new
  let p1 := s1.poll w
  let s2 := (p1.2.hw_fire).target0_handler
  (p1.1, s2, s2.poll w)

/-- C3 (amended): the caller suspends on its first poll, the handler schedules
its resumption, and the caller resumes on its next poll; immediately after
resumption the channel's interrupt-ENABLE bit is clear (`event_bit_is_clear`
holds — the handler clears INT_ENA before waking the caller), while
`is_interrupt_set`, which reads the raw status bit INT_RAW, still returns
true until `clear_interrupt` is called. -/
theorem wait_resumption_clears_enable_not_raw (s : AsyncState) (w : Nat) :
    (wait_scenario s w).1 = PollResult.Pending ∧
    (wait_scenario s w).2.1.woken = s.woken ++ [w] ∧
    (wait_scenario s w).2.2.1 = PollResult.Ready ∧
    (wait_scenario s w).2.2.2.event_bit_is_clear = true ∧
    (wait_scenario s w).2.2.2.is_interrupt_set = true :=
  ⟨rfl, rfl, rfl, rfl, rfl⟩

/-- C3 counterexample: in a concrete run of the scenario the resumed caller's
next poll returns Ready, but `is_interrupt_set` returns true — not false as
the claim states — because the handler cleared the interrupt-enable bit, not
the raw status bit that `is_interrupt_set` reads. -/
theorem wait_resumption_is_interrupt_set_true :
    (wait_scenario (AsyncState.mk false false none []) 7).2.2.1 = PollResult.Ready ∧
    (wait_scenario (AsyncState.mk false false none []) 7).2.2.2.is_interrupt_set = true ∧
    (wait_scenario (AsyncState.mk false false none []) 7).2.2.2.is_interrupt_set ≠ false := by
  decide

/-- C7: the suspension slot holds at most one outstanding waker (it is an
`Option`); when two callers poll the same channel before either is woken, the
second registration replaces the first, and the interrupt handler wakes only
the most recently registered caller, emptying the slot. -/
theorem wakers_last_register_wins (s : AsyncState) (a b : Nat) :
    ((s.poll a).2.poll b).2.waker = some b ∧
    (((s.poll a).2.poll b).2.target0_handler).woken = s.woken ++ [b] ∧
    (((s.poll a).2.poll b).2.target0_handler).waker = none :=
  ⟨rfl, rfl, rfl⟩

/-- C10: `AlarmFuture::poll` registers the caller's waker strictly before
checking the event bit; consequently, wherever the handler's notification
lands relative to a poll — before the poll, between its registration and its
check, or after the poll — either that poll completes immediately (Ready) or
the notification finds the handle registered and schedules its wakeup.  A
wakeup arriving between the check and the suspension is never lost. -/
theorem poll_register_before_check_no_lost_wakeup (s : AsyncState) (w : Nat) :
    (s.poll w = (s.poll_register w).poll_check) ∧
    ((s.target0_handler.poll w).1 = PollResult.Ready) ∧
    (((s.poll_register w).target0_handler).poll_check.1 = PollResult.Ready) ∧
    ((s.poll w).1 = PollResult.Ready ∨ w ∈ ((s.poll w).2.target0_handler).woken) := by
  refine ⟨rfl, ?_, rfl, ?_⟩
  · cases hw : s.waker <;>
      simp [AsyncState.target0_handler, AsyncState.enable_interrupt,
        AsyncState.waker_wake, AsyncState.poll, AsyncState.poll_register,
        AsyncState.waker_register, AsyncState.poll_check,
        AsyncState.event_bit_is_clear, hw]
  · by_cases he : s.int_ena
    · right
      simp [AsyncState.poll, AsyncState.poll_register, AsyncState.waker_register,
        AsyncState.poll_check, AsyncState.event_bit_is_clear,
        AsyncState.target0_handler, AsyncState.enable_interrupt,
        AsyncState.waker_wake, he]
    · left
      simp [AsyncState.poll, AsyncState.poll_register, AsyncState.waker_register,
        AsyncState.poll_check, AsyncState.event_bit_is_clear, he]

/-! ### Reentrant multicore lock (`esp-hal/src/lib.rs`, `mod multicore`) -/

/-- `UNUSED_THREAD_ID_VALUE` (lib.rs): a sentinel owner value that
`get_raw_core()` — which returns 0 or 0x2000 — can never return. -/
def UNUSED_THREAD_ID_VALUE : Nat := 0x0001

/-- `LockKind` (lib.rs). -/
inductive LockKind
  | Lock
  | Reentry
deriving DecidableEq, Repr

/-- `ReentrantMutex` (lib.rs): a single atomic owner word. -/
structure ReentrantMutex where
  owner : Nat
deriving DecidableEq, Repr

/-- `ReentrantMutex::try_lock` (lib.rs): compare-and-swap of the owner word
from the sentinel to `new_owner`. -/
def ReentrantMutex.try_lock (s : ReentrantMutex) (new_owner : Nat) :
    Bool × ReentrantMutex :=
  if s.owner = UNUSED_THREAD_ID_VALUE then (true, { owner := new_owner })
  else (false, s)

/-- The `while !self.try_lock(current_thread_id) {}` spin of
`ReentrantMutex::lock`, with explicit fuel.  In this single-actor model no
other core changes the owner word between iterations, so the spin either
succeeds at once or exhausts its fuel. -/
def ReentrantMutex.spin (s : ReentrantMutex) (tid : Nat) :
    Nat → Option (LockKind × ReentrantMutex)
  | 0 => none
  | fuel + 1 =>
    match s.try_lock tid with
    | (true, s1) => some (LockKind.Lock, s1)
    | (false, s1) => s1.spin tid fuel

/-- `ReentrantMutex::lock` (lib.rs lines 358-374): fast-path `try_lock`, then
the same-owner reentry check, then the spin loop.  `fuel` bounds only the spin
loop, so a result at `fuel = 0` means the call performed no spin iteration. -/
def ReentrantMutex.lock (s : ReentrantMutex) (tid : Nat) (fuel : Nat) :
    Option (LockKind × ReentrantMutex) :=
  match s.try_lock tid with
  | (true, s1) => some (LockKind.Lock, s1)
  | (false, s1) =>
    let current_owner := s1.owner
    if current_owner = tid then some (LockKind.Reentry, s1)
    else s1.spin tid fuel

/-- `ReentrantMutex::unlock` (lib.rs lines 386-388). -/
def ReentrantMutex.unlock (_s : ReentrantMutex) : ReentrantMutex :=
  { owner := UNUSED_THREAD_ID_VALUE }

/-- `ReentrantMutex::is_owned_by_current_thread` (lib.rs). -/
def ReentrantMutex.is_owned_by_current_thread (s : ReentrantMutex) (tid : Nat) : Bool :=
  s.owner = tid

/-- The release path of the critical-section implementation (lib.rs,
`critical_section_impl`): a token carrying the reentry flag returns without
unlocking; a plain acquisition unlocks. -/
def ReentrantMutex.release (s : ReentrantMutex) (kind : LockKind) : ReentrantMutex :=
  match kind with
  | LockKind.Reentry => s
  | LockKind.Lock => s.unlock

/-- C8: an acquire by the logical owner that already holds the lock terminates
with no spin iteration (any fuel, including 0), returning a Reentry
acquisition and leaving the state unchanged; releasing that Reentry
acquisition leaves the lock still held by the same owner; and an acquire
fails to complete without spinning exactly when a different owner — neither
the sentinel nor the caller — holds the lock.  (`tid` is a real core id,
never the sentinel.) -/
theorem reentrant_mutex_reentry_no_spin (s : ReentrantMutex) (tid : Nat)
    (htid : tid ≠ UNUSED_THREAD_ID_VALUE) :
    (s.owner = tid → ∀ fuel, s.lock tid fuel = some (LockKind.Reentry, s) ∧
      (s.release LockKind.Reentry).owner = tid ∧
      (s.release LockKind.Reentry).is_owned_by_current_thread tid = true) ∧
    (s.lock tid 0 = none ↔
      s.owner ≠ UNUSED_THREAD_ID_VALUE ∧ s.owner ≠ tid) := by
  constructor
  · intro howner fuel
    have hno : ¬ s.owner = UNUSED_THREAD_ID_VALUE := by rw [howner]; exact htid
    refine ⟨?_, ?_, ?_⟩
    · simp [ReentrantMutex.lock, ReentrantMutex.try_lock, hno, howner, htid]
    · simp [ReentrantMutex.release, howner]
    · simp [ReentrantMutex.release, ReentrantMutex.is_owned_by_current_thread, howner]
  · constructor
    · intro h
      by_cases h1 : s.owner = UNUSED_THREAD_ID_VALUE
      · simp [ReentrantMutex.lock, ReentrantMutex.try_lock, h1] at h
      · by_cases h2 : s.owner = tid
        · simp [ReentrantMutex.lock, ReentrantMutex.try_lock, h1, h2, htid] at h
        · exact ⟨h1, h2⟩
    · rintro ⟨h1, h2⟩
      simp [ReentrantMutex.lock, ReentrantMutex.try_lock, ReentrantMutex.spin, h1, h2]

/-- Witness for C8's theorem: core id 0x2000 already owns the lock; a second
acquire with zero spin fuel returns a Reentry acquisition with the state
unchanged, and the matching release leaves the lock owned by that core. -/
theorem reentrant_mutex_reentry_no_spin_witness :
    (ReentrantMutex.mk 0x2000).lock 0x2000 0 =
      some (LockKind.Reentry, ReentrantMutex.mk 0x2000) ∧
    ((ReentrantMutex.mk 0x2000).release LockKind.Reentry).owner = 0x2000 :=
  ⟨((reentrant_mutex_reentry_no_spin (ReentrantMutex.mk 0x2000) 0x2000
      (by decide)).1 rfl 0).1,
    ((reentrant_mutex_reentry_no_spin (ReentrantMutex.mk 0x2000) 0x2000
      (by decide)).1 rfl 0).2.1⟩

end EspHal
